import Mathlib

/-!
Shallow embedding of the LLM invocation layer of the `neoqa` repository:
the `OPENROUTERWrapper` and `VLLMWrapper` adapters
(`src/dataset-generation/data_gen/llm/wrapper/models/*.py`) and the
`get_llm` factory (`src/dataset-generation/data_gen/llm/get_llm.py`).

The cache module (`data_gen.llm.cache.llm_hash_cache`) and the hashing
helper (`data_gen.util.misc.hash_messages`) are imported by the adapters
but their source is not part of the repository snapshot; they are
modelled from the specification (marked `Modelled from the spec:` below).

The network is abstracted as an oracle `backend : Nat → AttemptOutcome`
giving the outcome of the k-th network attempt (1-indexed): a successful
response text, an `openai.RateLimitError`, or any other exception.
-/

set_option linter.unusedVariables false

instance {ε α : Type} [DecidableEq ε] [DecidableEq α] : DecidableEq (Except ε α) :=
  fun a b =>
    match a, b with
    | .ok x, .ok y =>
      if h : x = y then .isTrue (by rw [h]) else .isFalse (by intro he; cases he; exact h rfl)
    | .error x, .error y =>
      if h : x = y then .isTrue (by rw [h]) else .isFalse (by intro he; cases he; exact h rfl)
    | .ok _, .error _ => .isFalse (by intro he; cases he)
    | .error _, .ok _ => .isFalse (by intro he; cases he)

/-- A chat message: a role ("user", "assistant", "system") with content. -/
structure Msg where
  role : String
  content : String
deriving DecidableEq, Repr

/-- Outcome of one network attempt (`self.client.chat.completions.create`). -/
inductive AttemptOutcome where
  | success (text : String)
  | rateLimited
  | otherError
deriving DecidableEq, Repr

/-- How `invoke_model_with_messages` can fail: the final
`ValueError('Ratelimit exceeded too many times!')` after the loop, or the
`NameError` raised by the VLLM variant's `except Exception` handler, whose
log line references the undefined name `max_attempts`. -/
inductive InvokeErr where
  | exhausted
  | nameError
deriving DecidableEq, Repr

/-- Observable behaviour of one `invoke_model_with_messages` call:
how many network attempts were performed, the backoff sleeps in order,
the message list passed to the network call on each attempt, and the
result (response text or raised error). -/
structure InvokeTrace where
  attempts : Nat
  sleeps : List Nat
  sent : List Msg
  result : Except InvokeErr String
deriving DecidableEq, Repr

/-- Python's `str.strip()`: remove whitespace from both ends. -/
def pyStrip (s : String) : String :=
  ⟨((s.toList.dropWhile Char.isWhitespace).reverse.dropWhile Char.isWhitespace).reverse⟩

/-- The `new_messages` list built inside `invoke_model_with_messages`
(both variants, identical code): a system message is prepended when the
system prompt is non-empty after stripping, then the input turns follow
in order with every non-"user" role mapped to "assistant". -/
def new_messages (system_prompt : String) (messages : List Msg) : List Msg :=
  (if 0 < (pyStrip system_prompt).length then [⟨"system", system_prompt⟩] else [])
    ++ messages.map (fun m =>
        if m.role = "user" then ⟨"user", m.content⟩ else ⟨"assistant", m.content⟩)

/-- The message list actually passed to
`self.client.chat.completions.create(...)`: the call site reads
`messages=messages`, so the original list is sent and `new_messages`
is discarded. -/
def sent_messages (system_prompt : String) (messages : List Msg) : List Msg :=
  messages

namespace OPENROUTERWrapper

/-- Retry loop of `OPENROUTERWrapper.invoke_model_with_messages`:
`remaining` attempts are left, `done` attempts were performed, `sleeps`
accumulates backoff sleeps in reverse. On success the response text is
returned immediately; on `RateLimitError` the loop sleeps 5 and retries;
on any other exception it retries without delay; when attempts run out it
raises `ValueError`. -/
def invokeAux (backend : Nat → AttemptOutcome) :
    Nat → Nat → List Nat → (Nat × List Nat × Except InvokeErr String)
  | 0, done, sleeps => (done, sleeps.reverse, .error .exhausted)
  | remaining + 1, done, sleeps =>
    match backend (done + 1) with
    | .success text => (done + 1, sleeps.reverse, .ok text)
    | .rateLimited => invokeAux backend remaining (done + 1) (5 :: sleeps)
    | .otherError => invokeAux backend remaining (done + 1) sleeps

/-- `OPENROUTERWrapper.invoke_model_with_messages`: bounded retry with a
caller-configurable `max_attempts` (the Python default is 10). -/
def invoke_model_with_messages (backend : Nat → AttemptOutcome)
    (system_prompt : String) (messages : List Msg)
    (max_gen_len : Nat) (temperature : ℚ) (max_attempts : Nat) : InvokeTrace :=
  let r := invokeAux backend max_attempts 0 []
  ⟨r.1, r.2.1, sent_messages system_prompt messages, r.2.2⟩

end OPENROUTERWrapper

namespace VLLMWrapper

/-- Retry loop of `VLLMWrapper.invoke_model_with_messages`. The loop bound
is the literal 10; the `try` block assigns the response but contains no
`return`, so a successful attempt simply continues the loop; the
`except Exception` handler executes a log line referencing the undefined
name `max_attempts`, raising `NameError`, which escapes the loop. -/
def invokeAux (backend : Nat → AttemptOutcome) :
    Nat → Nat → List Nat → (Nat × List Nat × Except InvokeErr String)
  | 0, done, sleeps => (done, sleeps.reverse, .error .exhausted)
  | remaining + 1, done, sleeps =>
    match backend (done + 1) with
    | .success _ => invokeAux backend remaining (done + 1) sleeps
    | .rateLimited => invokeAux backend remaining (done + 1) (5 :: sleeps)
    | .otherError => (done + 1, sleeps.reverse, .error .nameError)

/-- `VLLMWrapper.invoke_model_with_messages`: retry loop with a
hard-coded bound of 10 attempts and no `max_attempts` parameter. -/
def invoke_model_with_messages (backend : Nat → AttemptOutcome)
    (system_prompt : String) (messages : List Msg)
    (max_gen_len : Nat) (temperature : ℚ) : InvokeTrace :=
  let r := invokeAux backend 10 0 []
  ⟨r.1, r.2.1, sent_messages system_prompt messages, r.2.2⟩

end VLLMWrapper

/-- Modelled from the spec: `data_gen.util.misc.hash_messages` is absent
from the repository snapshot. Per §4.1 the fingerprint is deterministic,
distinguishes conversations differing in role, content or turn order, and
the multi-turn call path folds the system prompt into the hash input while
the single-turn path does not. It is modelled as the injective canonical
hash input itself: the optional folded system prompt paired with the
message list (`none` when the `system_prompt` argument is not passed). -/
def hash_messages (messages : List Msg) (system_prompt : Option String) :
    Option String × List Msg :=
  (system_prompt, messages)

/-- The fingerprint type produced by `hash_messages`. -/
abbrev Fingerprint := Option String × List Msg

/-- Modelled from the spec: `data_gen.llm.cache.llm_hash_cache.LLMHashCache`
(ResponseCache, §4.3) is absent from the repository snapshot. A mapping
keyed by `(fingerprint, model)` holding the original request payload and
the response text; inserts for an existing key are idempotent. -/
structure LLMHashCache where
  entries : List ((Fingerprint × String) × (List Msg × String))
deriving DecidableEq, Repr

/-- Modelled from the spec: `has(fingerprint, model) -> bool`. -/
def LLMHashCache.has_hash (c : LLMHashCache) (h : Fingerprint) (model : String) : Bool :=
  c.entries.any (fun e => e.1 = (h, model))

/-- Modelled from the spec: `get(fingerprint, model) -> response_text`,
`NotFound` (here `none`) when the key is absent. -/
def LLMHashCache.get_result (c : LLMHashCache) (h : Fingerprint) (model : String) :
    Option String :=
  (c.entries.find? (fun e => e.1 = (h, model))).map (fun e => e.2.2)

/-- Modelled from the spec: `add(fingerprint, model, request_payload,
response_text)`, idempotent for repeated inserts of the same key
(argument order follows the call sites:
`add_result(messages_hash, json.dumps(messages), response, self.model)`;
`json.dumps` is modelled as the identity on the message list). -/
def LLMHashCache.add_result (c : LLMHashCache) (h : Fingerprint)
    (payload : List Msg) (response : String) (model : String) : LLMHashCache :=
  if c.has_hash h model then c else ⟨((h, model), (payload, response)) :: c.entries⟩

/-- Mutable per-adapter state: the configuration fields set in `__init__`
plus the cache handle and the `count_queries` counter inherited from
`BaseLLMWrapper`. -/
structure WrapperState where
  model : String
  temperature : ℚ
  max_tokens : Nat
  cache : LLMHashCache
  count_queries : Nat
deriving DecidableEq, Repr

/-- How a `query` / `query_history` call can fail: the
`assert system_prompt is None or system_prompt == ''` in `query`, an
error raised by `invoke_model_with_messages`, or the cache's NotFound on
`get_result` (a contract violation that the adapters never trigger). -/
inductive QueryErr where
  | assertionError
  | invokeError (e : InvokeErr)
  | notFound
deriving DecidableEq, Repr

/-- Observable behaviour of one `query` / `query_history` call: the
returned response (or raised error), the adapter state afterwards, and
the number of `invoke_model_with_messages` calls performed. -/
structure QueryResult where
  result : Except QueryErr String
  state : WrapperState
  invocations : Nat
deriving DecidableEq, Repr

/-- The single-turn message list `[{"role": "user", "content": user_prompt}]`. -/
def singleTurnMessages (user_prompt : String) : List Msg :=
  [⟨"user", user_prompt⟩]

/-- The fingerprint `query` computes: `hash_messages(messages)` with the
system prompt argument not passed. -/
def singleTurnFingerprint (user_prompt : String) : Fingerprint :=
  hash_messages (singleTurnMessages user_prompt) none

/-- The message list `query_history` builds: alternating user/assistant
turns from `history`, then the new user `prompt`. -/
def historyMessages (history : List (String × String)) (prompt : String) : List Msg :=
  (history.map (fun p => [Msg.mk "user" p.1, Msg.mk "assistant" p.2])).flatten
    ++ [⟨"user", prompt⟩]

/-- The fingerprint `query_history` computes:
`hash_messages(messages, system_prompt=system_prompt)`. -/
def multiTurnFingerprint (system_prompt : String) (history : List (String × String))
    (prompt : String) : Fingerprint :=
  hash_messages (historyMessages history prompt) (some system_prompt)

/-- The cache consultation shared by `query` and `query_history` (both
adapters have textually identical bodies): on a fingerprint hit, no
invocation; on a miss, one `invoke_model_with_messages` call whose
successful result is stored via `add_result` and whose error propagates;
then `get_result` supplies the returned response. `inv` is the adapter's
`invoke_model_with_messages` already applied to everything but left
abstract here because the two adapters differ only in it. -/
def cachedCall (inv : InvokeTrace) (w : WrapperState)
    (messages : List Msg) (h : Fingerprint) : QueryResult :=
  if w.cache.has_hash h w.model then
    match w.cache.get_result h w.model with
    | some r => ⟨.ok r, w, 0⟩
    | none => ⟨.error .notFound, w, 0⟩
  else
    match inv.result with
    | .ok response =>
      match (w.cache.add_result h messages response w.model).get_result h w.model with
      | some r =>
        ⟨.ok r, { w with cache := w.cache.add_result h messages response w.model }, 1⟩
      | none =>
        ⟨.error .notFound,
          { w with cache := w.cache.add_result h messages response w.model }, 1⟩
    | .error e => ⟨.error (.invokeError e), w, 1⟩

namespace OPENROUTERWrapper

/-- `OPENROUTERWrapper.query`: bump `count_queries`, assert the system
prompt is `None` or empty, hash the single-turn message list without the
system prompt, and run the cached call; `invoke_model_with_messages` is
called with `system_prompt or ""`, the instance's `max_tokens` and
`temperature`, and the default `max_attempts` of 10. -/
def query (backend : Nat → AttemptOutcome) (w : WrapperState)
    (system_prompt : Option String) (user_prompt : String) : QueryResult :=
  let w1 := { w with count_queries := w.count_queries + 1 }
  if system_prompt = none ∨ system_prompt = some "" then
    cachedCall
      (invoke_model_with_messages backend (system_prompt.getD "")
        (singleTurnMessages user_prompt) w1.max_tokens w1.temperature 10)
      w1 (singleTurnMessages user_prompt) (singleTurnFingerprint user_prompt)
  else ⟨.error .assertionError, w1, 0⟩

/-- `OPENROUTERWrapper.query_history`: bump `count_queries`, build the
history message list, hash it with `system_prompt=system_prompt`, and run
the cached call. -/
def query_history (backend : Nat → AttemptOutcome) (w : WrapperState)
    (system_prompt : String) (prompt : String)
    (history : List (String × String)) : QueryResult :=
  let w1 := { w with count_queries := w.count_queries + 1 }
  cachedCall
    (invoke_model_with_messages backend system_prompt
      (historyMessages history prompt) w1.max_tokens w1.temperature 10)
    w1 (historyMessages history prompt)
    (multiTurnFingerprint system_prompt history prompt)

end OPENROUTERWrapper

namespace VLLMWrapper

/-- `VLLMWrapper.query`: textually identical to the OpenRouter variant's
`query` except that it calls the VLLM `invoke_model_with_messages`
(which has no `max_attempts` parameter). -/
def query (backend : Nat → AttemptOutcome) (w : WrapperState)
    (system_prompt : Option String) (user_prompt : String) : QueryResult :=
  let w1 := { w with count_queries := w.count_queries + 1 }
  if system_prompt = none ∨ system_prompt = some "" then
    cachedCall
      (invoke_model_with_messages backend (system_prompt.getD "")
        (singleTurnMessages user_prompt) w1.max_tokens w1.temperature)
      w1 (singleTurnMessages user_prompt) (singleTurnFingerprint user_prompt)
  else ⟨.error .assertionError, w1, 0⟩

/-- `VLLMWrapper.query_history`: textually identical to the OpenRouter
variant's `query_history` except for the invoke function. -/
def query_history (backend : Nat → AttemptOutcome) (w : WrapperState)
    (system_prompt : String) (prompt : String)
    (history : List (String × String)) : QueryResult :=
  let w1 := { w with count_queries := w.count_queries + 1 }
  cachedCall
    (invoke_model_with_messages backend system_prompt
      (historyMessages history prompt) w1.max_tokens w1.temperature)
    w1 (historyMessages history prompt)
    (multiTurnFingerprint system_prompt history prompt)

end VLLMWrapper

/-- Python's `needle in hay` on lists of characters: true when `needle`
occurs as a contiguous run. -/
def substrAux (needle : List Char) : List Char → Bool
  | [] => needle.isPrefixOf []
  | c :: cs => needle.isPrefixOf (c :: cs) || substrAux needle cs

/-- Python's substring containment `needle in hay` on strings. -/
def pyIn (needle hay : String) : Bool :=
  substrAux needle.toList hay.toList

/-- Which wrapper class `get_llm` constructs. -/
inductive LLMKind where
  | claude
  | gpt
  | vllm
  | openrouter
deriving DecidableEq, Repr

/-- The constructor arguments `get_llm` passes to the chosen wrapper
class: model version string, temperature, and (possibly clamped)
max_tokens. -/
structure LLMConfig where
  kind : LLMKind
  model_version : String
  temperature : ℚ
  max_tokens : Nat
deriving DecidableEq, Repr

/-- `get_llm` (`src/dataset-generation/data_gen/llm/get_llm.py`): routes
on the model name (exact match for the claude/gpt aliases, Python `in`
substring containment for the vllm/openrouter variants), clamps
`max_tokens` with `min((max_tokens, 40960))` on all but the claude
branch, strips the backend-selection prefix by character count
(`model_name[5:]` / `model_name[11:]`), and raises `NotImplementedError`
otherwise. -/
def get_llm (model_name : String) (temperature : ℚ) (max_tokens : Nat) :
    Except Unit LLMConfig :=
  if model_name = "claude-35" then
    .ok ⟨.claude, "3.5", temperature, max_tokens⟩
  else if model_name = "gpt4-turbo" then
    .ok ⟨.gpt, "gpt-4-turbo-2024-04-09", temperature, min max_tokens 40960⟩
  else if model_name = "gpt4-o" then
    .ok ⟨.gpt, "gpt-4o-2024-11-20", temperature, min max_tokens 40960⟩
  else if pyIn "vllm/" model_name then
    .ok ⟨.vllm, model_name.drop 5, temperature, min max_tokens 40960⟩
  else if pyIn "openrouter/" model_name then
    .ok ⟨.openrouter, model_name.drop 11, temperature, min max_tokens 40960⟩
  else
    .error ()

/-- An empty response cache, used for concrete instantiations. -/
def emptyCache : LLMHashCache := ⟨[]⟩

/-- A concrete adapter state with an empty cache, used for concrete
instantiations. -/
def freshState : WrapperState := ⟨"m", 0, 512, emptyCache, 0⟩

/-! ## Helper lemmas -/

theorem orInvokeAux_no_success (backend : Nat → AttemptOutcome)
    (hb : ∀ k s, backend k ≠ .success s) :
    ∀ (n done : Nat) (sleeps : List Nat),
      ∃ sl, OPENROUTERWrapper.invokeAux backend n done sleeps
        = (done + n, sl, .error .exhausted) := by
  intro n
  induction n with
  | zero => intro done sleeps; exact ⟨sleeps.reverse, rfl⟩
  | succ m ih =>
    intro done sleeps
    unfold OPENROUTERWrapper.invokeAux
    cases hk : backend (done + 1) with
    | success s => exact absurd hk (hb _ s)
    | rateLimited =>
      obtain ⟨sl, hsl⟩ := ih (done + 1) (5 :: sleeps)
      refine ⟨sl, ?_⟩
      have hn : done + (m + 1) = (done + 1) + m := by omega
      rw [hn]
      exact hsl
    | otherError =>
      obtain ⟨sl, hsl⟩ := ih (done + 1) sleeps
      refine ⟨sl, ?_⟩
      have hn : done + (m + 1) = (done + 1) + m := by omega
      rw [hn]
      exact hsl

theorem vllmInvokeAux_no_success (backend : Nat → AttemptOutcome)
    (hb : ∀ k s, backend k ≠ .success s) :
    ∀ (n done : Nat) (sleeps : List Nat),
      ∃ a sl e, VLLMWrapper.invokeAux backend n done sleeps = (a, sl, .error e) := by
  intro n
  induction n with
  | zero => intro done sleeps; exact ⟨done, sleeps.reverse, .exhausted, rfl⟩
  | succ m ih =>
    intro done sleeps
    unfold VLLMWrapper.invokeAux
    cases hk : backend (done + 1) with
    | success s => exact absurd hk (hb _ s)
    | rateLimited => exact ih (done + 1) (5 :: sleeps)
    | otherError => exact ⟨done + 1, sleeps.reverse, .nameError, rfl⟩

theorem cachedCall_miss_error (inv : InvokeTrace) (w : WrapperState)
    (messages : List Msg) (h : Fingerprint) (e : InvokeErr)
    (hmiss : w.cache.has_hash h w.model = false)
    (hinv : inv.result = .error e) :
    cachedCall inv w messages h = ⟨.error (.invokeError e), w, 1⟩ := by
  unfold cachedCall
  rw [hmiss, hinv]
  simp

theorem orInvoke_error_of_no_success (backend : Nat → AttemptOutcome)
    (hb : ∀ k s, backend k ≠ .success s) (sys : String) (messages : List Msg)
    (len : Nat) (temp : ℚ) (ma : Nat) :
    (OPENROUTERWrapper.invoke_model_with_messages backend sys messages len temp ma).result
      = .error .exhausted := by
  obtain ⟨sl, hsl⟩ := orInvokeAux_no_success backend hb ma 0 []
  unfold OPENROUTERWrapper.invoke_model_with_messages
  rw [hsl]

theorem vllmInvoke_error_of_no_success (backend : Nat → AttemptOutcome)
    (hb : ∀ k s, backend k ≠ .success s) (sys : String) (messages : List Msg)
    (len : Nat) (temp : ℚ) :
    ∃ e, (VLLMWrapper.invoke_model_with_messages backend sys messages len temp).result
      = .error e := by
  obtain ⟨a, sl, e, hsl⟩ := vllmInvokeAux_no_success backend hb 10 0 []
  refine ⟨e, ?_⟩
  unfold VLLMWrapper.invoke_model_with_messages
  rw [hsl]

theorem cachedCall_hit (inv : InvokeTrace) (w : WrapperState)
    (messages : List Msg) (h : Fingerprint) (stored : String)
    (hget : w.cache.get_result h w.model = some stored) :
    cachedCall inv w messages h = ⟨.ok stored, w, 0⟩ := by
  have hhit : w.cache.has_hash h w.model = true := by
    unfold LLMHashCache.get_result at hget
    unfold LLMHashCache.has_hash
    cases hf : w.cache.entries.find? (fun e => e.1 = (h, w.model)) with
    | none => rw [hf] at hget; cases hget
    | some entry =>
      rcases List.mem_of_find?_eq_some hf with hmem
      have := List.find?_some hf
      exact List.any_eq_true.mpr ⟨entry, hmem, this⟩
  unfold cachedCall
  rw [hhit, hget]
  simp

theorem cachedCall_miss_ok (inv : InvokeTrace) (w : WrapperState)
    (messages : List Msg) (h : Fingerprint) (r : String)
    (hmiss : w.cache.has_hash h w.model = false)
    (hinv : inv.result = .ok r) :
    cachedCall inv w messages h =
      ⟨.ok r, { w with cache := w.cache.add_result h messages r w.model }, 1⟩ := by
  have hadd : w.cache.add_result h messages r w.model
      = ⟨((h, w.model), (messages, r)) :: w.cache.entries⟩ := by
    unfold LLMHashCache.add_result
    rw [hmiss]
    simp
  have hget : (w.cache.add_result h messages r w.model).get_result h w.model = some r := by
    rw [hadd]
    unfold LLMHashCache.get_result
    simp [List.find?]
  unfold cachedCall
  rw [hmiss, hinv]
  simp only [Bool.false_eq_true, if_false]
  rw [hget]

theorem cachedCall_config_frame (inv : InvokeTrace) (w : WrapperState)
    (messages : List Msg) (h : Fingerprint) :
    (cachedCall inv w messages h).state.model = w.model
    ∧ (cachedCall inv w messages h).state.temperature = w.temperature
    ∧ (cachedCall inv w messages h).state.max_tokens = w.max_tokens
    ∧ (cachedCall inv w messages h).state.count_queries = w.count_queries := by
  unfold cachedCall
  split
  · split <;> exact ⟨rfl, rfl, rfl, rfl⟩
  · split
    · split <;> exact ⟨rfl, rfl, rfl, rfl⟩
    · exact ⟨rfl, rfl, rfl, rfl⟩

theorem orQuery_config_frame (backend : Nat → AttemptOutcome)
    (w : WrapperState) (sys : Option String) (u : String) :
    (OPENROUTERWrapper.query backend w sys u).state.model = w.model
    ∧ (OPENROUTERWrapper.query backend w sys u).state.temperature = w.temperature
    ∧ (OPENROUTERWrapper.query backend w sys u).state.max_tokens = w.max_tokens
    ∧ (OPENROUTERWrapper.query backend w sys u).state.count_queries
        = w.count_queries + 1 := by
  unfold OPENROUTERWrapper.query
  split
  · exact cachedCall_config_frame _ _ _ _
  · exact ⟨rfl, rfl, rfl, rfl⟩

theorem orQueryHistory_config_frame (backend : Nat → AttemptOutcome)
    (w : WrapperState) (sys2 p : String) (hist : List (String × String)) :
    (OPENROUTERWrapper.query_history backend w sys2 p hist).state.model = w.model
    ∧ (OPENROUTERWrapper.query_history backend w sys2 p hist).state.temperature
        = w.temperature
    ∧ (OPENROUTERWrapper.query_history backend w sys2 p hist).state.max_tokens
        = w.max_tokens
    ∧ (OPENROUTERWrapper.query_history backend w sys2 p hist).state.count_queries
        = w.count_queries + 1 := by
  exact cachedCall_config_frame _ _ _ _

theorem vllmQuery_config_frame (backend : Nat → AttemptOutcome)
    (w : WrapperState) (sys : Option String) (u : String) :
    (VLLMWrapper.query backend w sys u).state.model = w.model
    ∧ (VLLMWrapper.query backend w sys u).state.temperature = w.temperature
    ∧ (VLLMWrapper.query backend w sys u).state.max_tokens = w.max_tokens
    ∧ (VLLMWrapper.query backend w sys u).state.count_queries = w.count_queries + 1 := by
  unfold VLLMWrapper.query
  split
  · exact cachedCall_config_frame _ _ _ _
  · exact ⟨rfl, rfl, rfl, rfl⟩

theorem vllmQueryHistory_config_frame (backend : Nat → AttemptOutcome)
    (w : WrapperState) (sys2 p : String) (hist : List (String × String)) :
    (VLLMWrapper.query_history backend w sys2 p hist).state.model = w.model
    ∧ (VLLMWrapper.query_history backend w sys2 p hist).state.temperature = w.temperature
    ∧ (VLLMWrapper.query_history backend w sys2 p hist).state.max_tokens = w.max_tokens
    ∧ (VLLMWrapper.query_history backend w sys2 p hist).state.count_queries
        = w.count_queries + 1 := by
  exact cachedCall_config_frame _ _ _ _

theorem orQuery_eq_cachedCall (backend : Nat → AttemptOutcome)
    (w : WrapperState) (sys : Option String) (u : String)
    (hs : sys = none ∨ sys = some "") :
    OPENROUTERWrapper.query backend w sys u
      = cachedCall
          (OPENROUTERWrapper.invoke_model_with_messages backend (sys.getD "")
            (singleTurnMessages u) w.max_tokens w.temperature 10)
          { w with count_queries := w.count_queries + 1 }
          (singleTurnMessages u) (singleTurnFingerprint u) := by
  unfold OPENROUTERWrapper.query
  rw [if_pos hs]

theorem vllmQuery_eq_cachedCall (backend : Nat → AttemptOutcome)
    (w : WrapperState) (sys : Option String) (u : String)
    (hs : sys = none ∨ sys = some "") :
    VLLMWrapper.query backend w sys u
      = cachedCall
          (VLLMWrapper.invoke_model_with_messages backend (sys.getD "")
            (singleTurnMessages u) w.max_tokens w.temperature)
          { w with count_queries := w.count_queries + 1 }
          (singleTurnMessages u) (singleTurnFingerprint u) := by
  unfold VLLMWrapper.query
  rw [if_pos hs]

theorem orQueryHistory_eq_cachedCall (backend : Nat → AttemptOutcome)
    (w : WrapperState) (sys2 p : String) (hist : List (String × String)) :
    OPENROUTERWrapper.query_history backend w sys2 p hist
      = cachedCall
          (OPENROUTERWrapper.invoke_model_with_messages backend sys2
            (historyMessages hist p) w.max_tokens w.temperature 10)
          { w with count_queries := w.count_queries + 1 }
          (historyMessages hist p) (multiTurnFingerprint sys2 hist p) := rfl

theorem vllmQueryHistory_eq_cachedCall (backend : Nat → AttemptOutcome)
    (w : WrapperState) (sys2 p : String) (hist : List (String × String)) :
    VLLMWrapper.query_history backend w sys2 p hist
      = cachedCall
          (VLLMWrapper.invoke_model_with_messages backend sys2
            (historyMessages hist p) w.max_tokens w.temperature)
          { w with count_queries := w.count_queries + 1 }
          (historyMessages hist p) (multiTurnFingerprint sys2 hist p) := rfl

/-! ## Claim theorems -/

/-- C1: the claim says a cache miss performs exactly one
`invoke_model_with_messages` invocation, stores its result and returns
it. On the VLLM adapter this fails: with an empty cache and a backend
whose network call succeeds with "4" on every attempt, `query` performs
its single invocation but the invocation discards every successful
response (the `try` block has no `return`), so the call raises the
exhausted error and nothing is stored — the cache is unchanged. -/
theorem C1_vllm_miss_discards_response :
    VLLMWrapper.query (fun _ => .success "4") freshState (some "") "What is 2+2?"
      = ⟨.error (.invokeError .exhausted), { freshState with count_queries := 1 }, 1⟩ := by
  rfl

/-- C2: the claim says both variants return the backend's response text
on the first successful attempt. The OpenRouter variant does (2
rate-limited attempts then success yields the response at attempt 3),
but the VLLM variant's loop never returns on success: a backend that
succeeds on every attempt is invoked 10 times and the exhausted error is
raised. -/
theorem C2_vllm_success_not_terminal :
    VLLMWrapper.invoke_model_with_messages (fun _ => .success "4") "" [] 512 0
      = ⟨10, [], [], .error .exhausted⟩
    ∧ OPENROUTERWrapper.invoke_model_with_messages
        (fun k => if k ≤ 2 then .rateLimited else .success "4") "" [] 512 0 10
      = ⟨3, [5, 5], [], .ok "4"⟩ :=
  ⟨rfl, rfl⟩

/-- C3: the claim says the message list sent to the network call has a
system message prepended exactly when a non-empty system prompt is
supplied. Both variants build such a list (`new_messages`) but the call
site reads `messages=messages`, so with system prompt "s" the sent list
is the original user turn alone while the built list has the system
message. -/
theorem C3_system_message_not_sent :
    new_messages "s" [⟨"user", "hi"⟩] = [⟨"system", "s"⟩, ⟨"user", "hi"⟩]
    ∧ (OPENROUTERWrapper.invoke_model_with_messages (fun _ => .success "ok") "s"
        [⟨"user", "hi"⟩] 512 0 10).sent = [⟨"user", "hi"⟩]
    ∧ (VLLMWrapper.invoke_model_with_messages (fun _ => .success "ok") "s"
        [⟨"user", "hi"⟩] 512 0).sent = [⟨"user", "hi"⟩] :=
  ⟨rfl, rfl, rfl⟩

/-- C4: the claim says that when every attempt fails the exhausted error
is raised after exactly the configured maximum number of attempts
(configurable per call). The OpenRouter variant does this (shown here
with `max_attempts = 3`), but the VLLM variant has no `max_attempts`
parameter and its `except Exception` handler raises `NameError`
(undefined `max_attempts` in the log line), so a backend failing with a
generic exception makes the call abort after 1 attempt with `NameError`
instead of the exhausted error after 10. -/
theorem C4_vllm_attempt_bound_broken :
    VLLMWrapper.invoke_model_with_messages (fun _ => .otherError) "" [] 512 0
      = ⟨1, [], [], .error .nameError⟩
    ∧ OPENROUTERWrapper.invoke_model_with_messages (fun _ => .otherError) "" [] 512 0 3
      = ⟨3, [], [], .error .exhausted⟩ :=
  ⟨rfl, rfl⟩

/-- C6: the claim says a rate-limited attempt sleeps 5 and retries, any
other failure retries immediately, and neither failure class escapes the
loop before the attempt bound. The OpenRouter variant conforms (one
rate-limited then always-other-error runs all 10 attempts with a single
sleep), but in the VLLM variant the non-rate-limit failure class escapes
the loop: the same backend aborts it at attempt 2 with `NameError`. -/
theorem C6_vllm_transient_error_escapes :
    VLLMWrapper.invoke_model_with_messages
        (fun k => if k = 1 then .rateLimited else .otherError) "" [] 512 0
      = ⟨2, [5], [], .error .nameError⟩
    ∧ OPENROUTERWrapper.invoke_model_with_messages
        (fun k => if k = 1 then .rateLimited else .otherError) "" [] 512 0 10
      = ⟨10, [5], [], .error .exhausted⟩ :=
  ⟨rfl, rfl⟩

/-- C8: the claim says both call paths route through the same
canonicalization with identical treatment of the system prompt. They do
not: for the same logical conversation (one user turn "x", system prompt
"") the single-turn path hashes the messages without the system prompt
argument while the multi-turn path folds it in, so the two fingerprints
differ even though the message lists coincide. -/
theorem C8_fingerprint_paths_disagree :
    historyMessages [] "x" = singleTurnMessages "x"
    ∧ singleTurnFingerprint "x" ≠ multiTurnFingerprint "" [] "x" :=
  ⟨rfl, by decide⟩

/-- C5: when `invoke_model_with_messages` raises after exhausting
retries inside `query` or `query_history` (backend never succeeds, cache
miss for the conversation's fingerprint), the adapter state keeps the
original cache — only `count_queries` is bumped — and the error
propagates to the caller as the call's result, on both adapters and both
call paths. -/
theorem C5_invoke_error_leaves_cache_unmodified
    (w : WrapperState) (backend : Nat → AttemptOutcome)
    (sys : Option String) (hs : sys = none ∨ sys = some "")
    (sys2 u p : String) (hist : List (String × String))
    (hb : ∀ k s, backend k ≠ .success s)
    (hm1 : w.cache.has_hash (singleTurnFingerprint u) w.model = false)
    (hm2 : w.cache.has_hash (multiTurnFingerprint sys2 hist p) w.model = false) :
    OPENROUTERWrapper.query backend w sys u
      = ⟨.error (.invokeError .exhausted),
          { w with count_queries := w.count_queries + 1 }, 1⟩
    ∧ OPENROUTERWrapper.query_history backend w sys2 p hist
      = ⟨.error (.invokeError .exhausted),
          { w with count_queries := w.count_queries + 1 }, 1⟩
    ∧ (∃ e, VLLMWrapper.query backend w sys u
      = ⟨.error (.invokeError e), { w with count_queries := w.count_queries + 1 }, 1⟩)
    ∧ (∃ e, VLLMWrapper.query_history backend w sys2 p hist
      = ⟨.error (.invokeError e), { w with count_queries := w.count_queries + 1 }, 1⟩) := by
  refine ⟨?_, ?_, ?_, ?_⟩
  · rw [orQuery_eq_cachedCall backend w sys u hs]
    exact cachedCall_miss_error _ _ _ _ .exhausted hm1
      (orInvoke_error_of_no_success backend hb _ _ _ _ _)
  · rw [orQueryHistory_eq_cachedCall backend w sys2 p hist]
    exact cachedCall_miss_error _ _ _ _ .exhausted hm2
      (orInvoke_error_of_no_success backend hb _ _ _ _ _)
  · obtain ⟨e, he⟩ := vllmInvoke_error_of_no_success backend hb
      (sys.getD "") (singleTurnMessages u) w.max_tokens w.temperature
    refine ⟨e, ?_⟩
    rw [vllmQuery_eq_cachedCall backend w sys u hs]
    exact cachedCall_miss_error _ _ _ _ e hm1 he
  · obtain ⟨e, he⟩ := vllmInvoke_error_of_no_success backend hb
      sys2 (historyMessages hist p) w.max_tokens w.temperature
    refine ⟨e, ?_⟩
    rw [vllmQueryHistory_eq_cachedCall backend w sys2 p hist]
    exact cachedCall_miss_error _ _ _ _ e hm2 he

/-- Witness for C5 at a concrete input: fresh adapter state, backend
that is rate-limited on every attempt. -/
theorem C5_witness :
    OPENROUTERWrapper.query (fun _ => .rateLimited) freshState none "a"
      = ⟨.error (.invokeError .exhausted), { freshState with count_queries := 1 }, 1⟩
    ∧ OPENROUTERWrapper.query_history (fun _ => .rateLimited) freshState "" "b" []
      = ⟨.error (.invokeError .exhausted), { freshState with count_queries := 1 }, 1⟩
    ∧ (∃ e, VLLMWrapper.query (fun _ => .rateLimited) freshState none "a"
      = ⟨.error (.invokeError e), { freshState with count_queries := 1 }, 1⟩)
    ∧ (∃ e, VLLMWrapper.query_history (fun _ => .rateLimited) freshState "" "b" []
      = ⟨.error (.invokeError e), { freshState with count_queries := 1 }, 1⟩) :=
  C5_invoke_error_leaves_cache_unmodified freshState (fun _ => .rateLimited)
    none (Or.inl rfl) "" "a" "b" [] (fun k s h => by cases h) rfl rfl

/-- C7: whenever `get_llm` yields a vllm-variant or openrouter-variant
adapter, the `max_tokens` it passes to the wrapper constructor is
`min(requested, 40960)`. -/
theorem C7_max_tokens_clamped (model_name : String) (t : ℚ) (mt : Nat)
    (c : LLMConfig) (hok : get_llm model_name t mt = .ok c)
    (hkind : c.kind = .vllm ∨ c.kind = .openrouter) :
    c.max_tokens = min mt 40960 := by
  unfold get_llm at hok
  split_ifs at hok
  · injection hok with h
    subst h
    rcases hkind with h | h <;> simp at h
  · injection hok with h
    subst h
    rcases hkind with h | h <;> simp at h
  · injection hok with h
    subst h
    rcases hkind with h | h <;> simp at h
  · injection hok with h
    subst h
    rfl
  · injection hok with h
    subst h
    rfl

/-- Witness for C7: requesting 100000 tokens for a vllm-variant model
yields an effective max_tokens of 40960. -/
theorem C7_witness :
    get_llm "vllm/foo" 0 100000 = .ok ⟨.vllm, "foo", 0, 40960⟩
    ∧ (LLMConfig.mk .vllm "foo" 0 40960).max_tokens = min 100000 40960 :=
  ⟨rfl, C7_max_tokens_clamped "vllm/foo" 0 100000 ⟨.vllm, "foo", 0, 40960⟩ rfl (Or.inl rfl)⟩

/-- C9: every `query` / `query_history` call, on both adapters and on
every path (hit, miss, error, failed assertion), increments the
instance's `count_queries` by exactly one and leaves the `model`,
`temperature` and `max_tokens` configuration fields unchanged. -/
theorem C9_counter_and_config_frame (backend : Nat → AttemptOutcome)
    (w : WrapperState) (sys : Option String) (u sys2 p : String)
    (hist : List (String × String)) :
    ((OPENROUTERWrapper.query backend w sys u).state.model = w.model
      ∧ (OPENROUTERWrapper.query backend w sys u).state.temperature = w.temperature
      ∧ (OPENROUTERWrapper.query backend w sys u).state.max_tokens = w.max_tokens
      ∧ (OPENROUTERWrapper.query backend w sys u).state.count_queries
          = w.count_queries + 1)
    ∧ ((OPENROUTERWrapper.query_history backend w sys2 p hist).state.model = w.model
      ∧ (OPENROUTERWrapper.query_history backend w sys2 p hist).state.temperature
          = w.temperature
      ∧ (OPENROUTERWrapper.query_history backend w sys2 p hist).state.max_tokens
          = w.max_tokens
      ∧ (OPENROUTERWrapper.query_history backend w sys2 p hist).state.count_queries
          = w.count_queries + 1)
    ∧ ((VLLMWrapper.query backend w sys u).state.model = w.model
      ∧ (VLLMWrapper.query backend w sys u).state.temperature = w.temperature
      ∧ (VLLMWrapper.query backend w sys u).state.max_tokens = w.max_tokens
      ∧ (VLLMWrapper.query backend w sys u).state.count_queries = w.count_queries + 1)
    ∧ ((VLLMWrapper.query_history backend w sys2 p hist).state.model = w.model
      ∧ (VLLMWrapper.query_history backend w sys2 p hist).state.temperature
          = w.temperature
      ∧ (VLLMWrapper.query_history backend w sys2 p hist).state.max_tokens
          = w.max_tokens
      ∧ (VLLMWrapper.query_history backend w sys2 p hist).state.count_queries
          = w.count_queries + 1) :=
  ⟨orQuery_config_frame backend w sys u,
   orQueryHistory_config_frame backend w sys2 p hist,
   vllmQuery_config_frame backend w sys u,
   vllmQueryHistory_config_frame backend w sys2 p hist⟩

/-- C10: on both adapters, calling `query` with a system prompt that is
neither `None` nor the empty string fails the assertion: the call
returns the assertion error with zero `invoke_model_with_messages`
invocations and the state changed only by the (already performed)
`count_queries` increment — no cache lookup result is consumed and no
network call happens. -/
theorem C10_nonempty_system_prompt_asserts (backend : Nat → AttemptOutcome)
    (w : WrapperState) (s u : String) (hs : s ≠ "") :
    OPENROUTERWrapper.query backend w (some s) u
      = ⟨.error .assertionError, { w with count_queries := w.count_queries + 1 }, 0⟩
    ∧ VLLMWrapper.query backend w (some s) u
      = ⟨.error .assertionError, { w with count_queries := w.count_queries + 1 }, 0⟩ := by
  have hcond : ¬((some s : Option String) = none ∨ (some s : Option String) = some "") := by
    rintro (h | h)
    · exact Option.some_ne_none s h
    · exact hs (Option.some.inj h)
  constructor
  · unfold OPENROUTERWrapper.query
    rw [if_neg hcond]
  · unfold VLLMWrapper.query
    rw [if_neg hcond]

/-- Witness for C10 at a concrete input: system prompt "x". -/
theorem C10_witness :
    ("x" : String) ≠ ""
    ∧ OPENROUTERWrapper.query (fun _ => .rateLimited) freshState (some "x") "u"
      = ⟨.error .assertionError, { freshState with count_queries := 1 }, 0⟩
    ∧ VLLMWrapper.query (fun _ => .rateLimited) freshState (some "x") "u"
      = ⟨.error .assertionError, { freshState with count_queries := 1 }, 0⟩ :=
  ⟨by decide,
   (C10_nonempty_system_prompt_asserts (fun _ => .rateLimited) freshState "x" "u"
      (by decide)).1,
   (C10_nonempty_system_prompt_asserts (fun _ => .rateLimited) freshState "x" "u"
      (by decide)).2⟩
